import Mathlib

/-!
Shallow embedding of the dusk-blockchain chain-acceptance pipeline,
the reduction coordinator and the block/certificate wire codec,
together with theorems settling the frozen specification claims.

Byte buffers are embedded as `List Nat` (each element one byte).
Machine integers are `Nat` (u8/u64) or `Int` (i64); wrap-around is
made explicit where the source relies on it.
-/

namespace Dusk

/-! ## Little-endian byte encoding (basis of the wire format) -/

/-- Serialize `n` into `k` little-endian bytes (`n` is taken modulo `256 ^ k`). -/
def toLEBytes : Nat → Nat → List Nat
  | 0, _ => []
  | k + 1, n => n % 256 :: toLEBytes k (n / 256)

/-- Read back a little-endian byte sequence as a natural number. -/
def fromLEBytes : List Nat → Nat
  | [] => 0
  | b :: rest => b + 256 * fromLEBytes rest

theorem toLEBytes_length (k n : Nat) : (toLEBytes k n).length = k := by
  induction k generalizing n with
  | zero => rfl
  | succ k ih => simp [toLEBytes, ih]

theorem fromLEBytes_toLEBytes (k n : Nat) (h : n < 256 ^ k) :
    fromLEBytes (toLEBytes k n) = n := by
  induction k generalizing n with
  | zero =>
    simp [Nat.pow_zero] at h
    simp [toLEBytes, fromLEBytes, h]
  | succ k ih =>
    have hdiv : n / 256 < 256 ^ k := by
      apply Nat.div_lt_of_lt_mul
      rw [Nat.mul_comm]
      exact lt_of_lt_of_le h (le_of_eq (pow_succ 256 k))
    simp [toLEBytes, fromLEBytes, ih (n / 256) hdiv]
    exact Nat.mod_add_div n 256

/-! ## Encoding primitives

Modelled from the spec: the `encoding` package
(`WriteUint8`, `WriteUint64LE`, `Write256`, `WriteBLS`, `ReadUint8`,
`ReadUint64LE`, `Read256`, `ReadBLS`, `ReadVarInt`) is not part of the
provided sources; it is reconstructed from the wire-format section of the
spec: little-endian integers, 32-byte hashes, 33-byte BLS signatures,
Bitcoin-convention varints. -/

def writeUint8 (b : List Nat) (v : Nat) : List Nat := b ++ [v % 256]

def writeUint64LE (b : List Nat) (v : Nat) : List Nat := b ++ toLEBytes 8 v

def write256 (b : List Nat) (s : List Nat) : Except String (List Nat) :=
  if s.length = 32 then .ok (b ++ s) else .error "hash must be 32 bytes"

def writeBLS (b : List Nat) (s : List Nat) : Except String (List Nat) :=
  if s.length = 33 then .ok (b ++ s) else .error "BLS data must be 33 bytes"

/-- Split off exactly `n` leading bytes, failing on a short buffer. -/
def takeExact (n : Nat) (b : List Nat) : Except String (List Nat × List Nat) :=
  if n ≤ b.length then .ok (b.take n, b.drop n) else .error "unexpected EOF"

def readUint8 : List Nat → Except String (Nat × List Nat)
  | [] => .error "unexpected EOF"
  | v :: rest => .ok (v, rest)

def readUint64LE (b : List Nat) : Except String (Nat × List Nat) :=
  (takeExact 8 b).map fun p => (fromLEBytes p.1, p.2)

def read256 (b : List Nat) : Except String (List Nat × List Nat) :=
  takeExact 32 b

def readBLS (b : List Nat) : Except String (List Nat × List Nat) :=
  takeExact 33 b

/-- Bitcoin-convention varint: a leading byte below 0xFD is the value,
0xFD/0xFE/0xFF announce a 2/4/8-byte little-endian payload. -/
def readVarInt : List Nat → Except String (Nat × List Nat)
  | [] => .error "unexpected EOF"
  | v :: rest =>
    if v < 0xFD then .ok (v, rest)
    else if v = 0xFD then (takeExact 2 rest).map fun p => (fromLEBytes p.1, p.2)
    else if v = 0xFE then (takeExact 4 rest).map fun p => (fromLEBytes p.1, p.2)
    else (takeExact 8 rest).map fun p => (fromLEBytes p.1, p.2)

/-! ## Certificate and header data (from `block` package usage in the sources) -/

structure Certificate where
  stepOneBatchedSig : List Nat
  stepTwoBatchedSig : List Nat
  step : Nat
  stepOneCommittee : Nat
  stepTwoCommittee : Nat
  deriving DecidableEq

structure Header where
  version : Nat
  height : Nat
  timestamp : Int
  prevBlockHash : List Nat
  seed : List Nat
  txRoot : List Nat
  certificate : Certificate
  hash : List Nat
  deriving DecidableEq

/-- Reinterpret an unsigned 64-bit value as a signed one
(`int64(timestamp)` in `UnmarshalHeader`). -/
def i64ofU64 (n : Nat) : Int :=
  if n < 2 ^ 63 then (n : Int) else (n : Int) - 2 ^ 64

/-! ## Certificate codec (from `MarshalCertificate` / `UnmarshalCertificate`) -/

def MarshalCertificate (r : List Nat) (c : Certificate) : Except String (List Nat) :=
  match writeBLS r c.stepOneBatchedSig with
  | .error e => .error e
  | .ok r =>
    match writeBLS r c.stepTwoBatchedSig with
    | .error e => .error e
    | .ok r =>
      .ok (writeUint64LE (writeUint64LE (writeUint8 r c.step)
            c.stepOneCommittee) c.stepTwoCommittee)

def UnmarshalCertificate (r : List Nat) : Except String (Certificate × List Nat) :=
  match readBLS r with
  | .error e => .error e
  | .ok (s1, r) =>
    match readBLS r with
    | .error e => .error e
    | .ok (s2, r) =>
      match readUint8 r with
      | .error e => .error e
      | .ok (st, r) =>
        match readUint64LE r with
        | .error e => .error e
        | .ok (c1, r) =>
          match readUint64LE r with
          | .error e => .error e
          | .ok (c2, r) => .ok (⟨s1, s2, st, c1, c2⟩, r)

/-! ## Header and block-body decoding (from `UnmarshalHeader` / `unmarshalBlockTxs`) -/

def UnmarshalHeader (r : List Nat) : Except String (Header × List Nat) :=
  match readUint8 r with
  | .error e => .error e
  | .ok (v, r) =>
    match readUint64LE r with
    | .error e => .error e
    | .ok (ht, r) =>
      match readUint64LE r with
      | .error e => .error e
      | .ok (ts, r) =>
        match read256 r with
        | .error e => .error e
        | .ok (ph, r) =>
          match readBLS r with
          | .error e => .error e
          | .ok (sd, r) =>
            match read256 r with
            | .error e => .error e
            | .ok (tr, r) =>
              match UnmarshalCertificate r with
              | .error e => .error e
              | .ok (ct, r) =>
                match read256 r with
                | .error e => .error e
                | .ok (hs, r) => .ok (⟨v, ht, i64ofU64 ts, ph, sd, tr, ct, hs⟩, r)

/-- `math.MaxInt32 / 8`, the transaction-count bound of `unmarshalBlockTxs`. -/
def maxBlockTxs : Nat := 2147483647 / 8

/-- Read `n` transactions in sequence with the supplied transaction
decoder (the `unmarshalTx unmarfunc` parameter of the source). -/
def readTxs {Tx : Type} (f : List Nat → Except String (Tx × List Nat)) :
    Nat → List Nat → Except String (List Tx × List Nat)
  | 0, r => .ok ([], r)
  | n + 1, r =>
    match f r with
    | .error e => .error e
    | .ok (t, r) =>
      match readTxs f n r with
      | .error e => .error e
      | .ok (ts, r) => .ok (t :: ts, r)

def unmarshalBlockTxs {Tx : Type} (f : List Nat → Except String (Tx × List Nat))
    (r : List Nat) : Except String (Header × List Tx × List Nat) :=
  match UnmarshalHeader r with
  | .error e => .error e
  | .ok (h, r) =>
    match readVarInt r with
    | .error e => .error e
    | .ok (lTxs, r) =>
      if lTxs > maxBlockTxs then
        .error "block tx count too large"
      else
        match readTxs f lTxs r with
        | .error e => .error e
        | .ok (ts, r) => .ok (h, ts, r)

/-! ## Chain data model (from `chain.go` and the `block`/`user` package usage) -/

/-- Provisioner set. The `user.Provisioners` internals are irrelevant to the
chain claims; members are opaque identifiers ordered as delivered. -/
structure Provisioners where
  members : List Nat
  deriving DecidableEq

/-- `user.NewProvisioners`: the fresh, empty provisioner set. -/
def NewProvisioners : Provisioners := ⟨[]⟩

/-- `Provisioners.Copy`: a deep copy of pure data is the data itself. -/
def Provisioners.copy (p : Provisioners) : Provisioners := ⟨p.members⟩

/-- Blocks carry a header and opaque transactions (`[]ContractCall`). -/
structure Block where
  header : Header
  txs : List Nat
  deriving DecidableEq

/-- Modelled from the spec: `block.EmptyCertificate` (the consensus-empty
certificate installed at genesis), not in the provided sources. -/
def EmptyCertificate : Certificate :=
  ⟨List.replicate 33 0, List.replicate 33 0, 0, 0, 0⟩

/-- `consensus.RoundUpdate` as assembled by `Chain.getRoundUpdate`. -/
structure RoundUpdate where
  round : Nat
  p : Provisioners
  seed : List Nat
  hash : List Nat
  deriving DecidableEq

/-- Observable side effects of the chain procedures, in program order. -/
inductive Action where
  | setTip (b : Block)
  | appendBlock (b : Block)
  | publishGossipInv (hash : List Nat)
  | publishAcceptedBlock (b : Block)
  | decrementCounter
  | publishStopConsensus
  | publishRoundUpdate (ru : RoundUpdate)
  | callAcceptBlock (b : Block)
  | resetStateAction
  | clearWalletAction
  deriving DecidableEq

/-- The mutable fields of `Chain` the claims are about. -/
structure ChainState where
  tip : Block
  p : Provisioners
  lastCertificate : Option Certificate
  storage : List Block
  counter : Nat
  deriving DecidableEq

/-- Modelled from the spec: `chainsync.Counter` holds the number of blocks
still missing while syncing; the node is syncing while it is positive. -/
def isSyncing (counter : Nat) : Bool := counter > 0

/-- Results of the external collaborators consulted by `Chain.AcceptBlock`:
the `Verifier`, the Rusk executor and the storage `Loader.Append`. -/
structure AcceptEnv where
  sanityCheckBlock : Block → Block → Except String Unit
  getProvisioners : Except String Provisioners
  checkBlockCertificate : Provisioners → Block → Except String Unit
  executeStateTransition : List Nat → Nat → Except String Provisioners
  appendResult : Except String Unit

/-- `Chain.AcceptBlock` (current chain, `chain.go`): sanity check, provisioner
refresh, certificate check, state transition, tip update, store, advertise,
announce, counter decrement. Returns the error, the final state and the
emitted side effects in order. -/
def AcceptBlock (env : AcceptEnv) (s : ChainState) (blk : Block) :
    Except String Unit × ChainState × List Action :=
  match env.sanityCheckBlock s.tip blk with
  | .error e => (.error e, s, [])
  | .ok () =>
    match env.getProvisioners with
    | .error e => (.error e, s, [])
    | .ok provisioners =>
      let s := { s with p := provisioners }
      match env.checkBlockCertificate s.p blk with
      | .error e => (.error e, s, [])
      | .ok () =>
        match env.executeStateTransition blk.txs blk.header.height with
        | .error e => (.error e, s, [])
        | .ok provisioners2 =>
          let s := { s with p := provisioners2, tip := blk }
          match env.appendResult with
          | .error e => (.error e, s, [.setTip blk])
          | .ok () =>
            let s := { s with storage := s.storage ++ [blk], counter := s.counter - 1 }
            (.ok (), s,
              [.setTip blk, .appendBlock blk, .publishGossipInv blk.header.hash,
               .publishAcceptedBlock blk, .decrementCounter])

/-- `Chain.getRoundUpdate`. -/
def getRoundUpdate (s : ChainState) : RoundUpdate :=
  ⟨s.tip.header.height + 1, s.p.copy, s.tip.header.seed, s.tip.header.hash⟩

/-- `Chain.beginAccepting`: refuse when the counter is not syncing, otherwise
publish `StopConsensus` and let the acceptance proceed. -/
def beginAccepting (s : ChainState) : Bool × List Action :=
  if !isSyncing s.counter then (false, [])
  else (true, [.publishStopConsensus])

/-- `Chain.onAcceptBlock`: the Block-topic handler. The `callAcceptBlock`
action marks the point where the source invokes `c.AcceptBlock`. -/
def onAcceptBlock (env : AcceptEnv) (s : ChainState) (blk : Block) :
    Except String Unit × ChainState × List Action :=
  match beginAccepting s with
  | (false, t0) => (.ok (), s, t0)
  | (true, t0) =>
    match AcceptBlock env s blk with
    | (.error e, s1, t1) => (.error e, s1, t0 ++ Action.callAcceptBlock blk :: t1)
    | (.ok (), s1, t1) =>
      let s2 := { s1 with lastCertificate := some blk.header.certificate }
      let t2 := if !isSyncing s2.counter then [Action.publishRoundUpdate (getRoundUpdate s2)] else []
      (.ok (), s2, t0 ++ Action.callAcceptBlock blk :: (t1 ++ t2))

/-- `chain.New` on a loaded tip (non-legacy configuration): a genesis tip
installs the empty certificate; otherwise `lastCertificate` stays unset. -/
def chainNew (prevBlock : Block) : ChainState :=
  { tip := prevBlock
    p := NewProvisioners
    lastCertificate := if prevBlock.header.height = 0 then some EmptyCertificate else none
    storage := []
    counter := 0 }

/-- `Chain.onInitialization`: emit a single round update for the tip. -/
def onInitialization (s : ChainState) : Except String Unit × List Action :=
  (.ok (), [.publishRoundUpdate (getRoundUpdate s)])

/-! ## RebuildChain (from `Chain.RebuildChain` / `Chain.resetState`) -/

/-- Results of the external calls made by `RebuildChain`: `Loader.Clear`,
`Loader.LoadTip`, `Verifier.PerformSanityCheck` and the
`ClearWalletDatabase` request. -/
structure RebuildEnv where
  clearResult : Except String Unit
  loadTipResult : Except String Block
  sanityCheckResult : Except String Unit
  clearWalletResult : Except String Unit

/-- How `RebuildChain` terminates: a gRPC response, a returned error, or a
`log.Panic` (process exit). -/
inductive RebuildOutcome where
  | ok (resp : String)
  | err (e : String)
  | panic (e : String)
  deriving DecidableEq

/-- `Chain.RebuildChain`: halt consensus, clear storage (the only step whose
failure is returned), reload the genesis tip, sanity-check, reset the
in-memory state (`resetState`), clear the wallet database. Failures after
the clear step panic. -/
def RebuildChain (env : RebuildEnv) (s : ChainState) :
    RebuildOutcome × ChainState × List Action :=
  let t0 : List Action := [.publishStopConsensus]
  match env.clearResult with
  | .error e => (.err e, s, t0)
  | .ok () =>
    let s := { s with storage := [] }
    match env.loadTipResult with
    | .error e => (.panic e, s, t0)
    | .ok tip =>
      let s := { s with tip := tip }
      match env.sanityCheckResult with
      | .error e => (.panic e, s, t0 ++ [.setTip tip])
      | .ok () =>
        let s := { s with p := NewProvisioners, lastCertificate := some EmptyCertificate }
        match env.clearWalletResult with
        | .error e => (.panic e, s, t0 ++ [.setTip tip, .resetStateAction])
        | .ok () =>
          (.ok "Blockchain deleted. Syncing from scratch...", s,
            t0 ++ [.setTip tip, .resetStateAction, .clearWalletAction])

/-! ## The legacy chain (from `blockverification.go`) -/

namespace Legacy

/-- External dependencies of the legacy `AcceptBlock`/`verifyBlock`: the
seen-before lookup, the merkle-root computation used by `Block.SetRoot`, the
transaction checks (`checkMultiCoinbases` and `verifyTX`), the database
store and the gossip propagation. -/
structure Env where
  blockExists : Bool
  computeRoot : Block → Option (List Nat)
  txChecks : Block → Except String Unit
  storeResult : Except String Unit
  propagateResult : Except String Unit

/-- Legacy `Chain.checkBlockHeader`: stateless and stateful header checks
against the previous block. -/
def checkBlockHeader (computeRoot : Block → Option (List Nat))
    (prevBlock blk : Block) : Except String Unit :=
  if blk.header.version > 0 then
    .error "unsupported block version"
  else if blk.header.prevBlockHash ≠ prevBlock.header.hash then
    .error "previous block hash does not equal the previous hash in the current block"
  else if blk.header.height ≠ prevBlock.header.height + 1 then
    .error "current block height is not one plus the previous block height"
  else if blk.header.timestamp ≤ prevBlock.header.timestamp then
    .error "current timestamp is less than the previous timestamp"
  else
    match computeRoot blk with
    | none => .error "could not calculate the merkle tree root for this header"
    | some root =>
      if blk.header.txRoot ≠ root then .error "merkle root mismatch"
      else .ok ()

/-- Legacy `Chain.verifyBlock`. The source returns `nil` — success — when
`checkBlockHeader` reports an error, and only then runs the transaction
checks on the remaining path. -/
def verifyBlock (env : Env) (prevBlock blk : Block) : Except String Unit :=
  match checkBlockHeader env.computeRoot prevBlock blk with
  | .error _ => .ok ()
  | .ok () => env.txChecks blk

/-- Legacy `Chain.AcceptBlock`: seen-before check, `verifyBlock`, store,
tip update (`c.PrevBlock = blk`), gossip. -/
def AcceptBlock (env : Env) (prevBlock blk : Block) :
    Except String Unit × Block :=
  if env.blockExists then (.error "block already exists", prevBlock)
  else
    match verifyBlock env prevBlock blk with
    | .error e => (.error e, prevBlock)
    | .ok () =>
      match env.storeResult with
      | .error e => (.error e, prevBlock)
      | .ok () =>
        match env.propagateResult with
        | .error e => (.error e, blk)
        | .ok () => (.ok (), blk)

end Legacy

/-! ## Reduction coordinator (from `reduction/coordinator.go`) -/

namespace Reduction

/-- Events are opaque; `Option` distinguishes a `nil` event. A `nil` slice of
collected votes (timeout) is `none`. -/
abbrev REvent := Nat

/-- The handler calls made by the coordinator. -/
structure Env where
  embedVoteHash : Option REvent → Except String (List Nat)
  marshalHeader : List Nat → Nat → Except String Unit
  marshalVoteSet : List Nat → Option (List REvent) → Except String Unit

/-- `coordinator.encodeEv`: a `nil` vote slice is replaced by a single `nil`
event; the hash buffer is seeded with 32 zero bytes before
`EmbedVoteHash` appends to it. Collectors only deliver non-empty slices, so
`head?` matches the source's `events[0]`. -/
def encodeEv (env : Env) (events : Option (List REvent)) : Except String (List Nat) :=
  let first : Option REvent :=
    match events with
    | none => none
    | some es => es.head?
  match env.embedVoteHash first with
  | .error e => .error e
  | .ok h => .ok (List.replicate 32 0 ++ h)

/-- `len(events)` for a possibly-`nil` vote slice. -/
def numEvents : Option (List REvent) → Nat
  | none => 0
  | some es => es.length

/-- `coordinator.isReductionSuccessful`: both buffers non-nil, identical
bytes, and the first-phase vote set at least twice the quorum. -/
def isReductionSuccessful (hash1 hash2 : Option (List Nat))
    (events : Option (List REvent)) (quorum : Nat) : Bool :=
  let bothNotNil := hash1.isSome && hash2.isSome
  let identicalResults := hash1.getD [] == hash2.getD []
  let voteSetCorrectLength := numEvents events ≥ quorum * 2
  bothNotNil && identicalResults && voteSetCorrectLength

/-- Outcome of one `coordinator.begin` run: the propagated error if any, the
step counter afterwards, the hash sent on the reduction-vote channel and
the hash sent on the agreement-vote channel. -/
structure BeginResult where
  err : Option String
  stepAfter : Nat
  reductionVote : Option (List Nat)
  agreementVote : Option (List Nat)
  deriving DecidableEq

/-- `coordinator.begin`, with the two `fetch` results (phase-1 and phase-2
collected votes) passed in. -/
def beginStep (env : Env) (quorum step : Nat)
    (events1 events2 : Option (List REvent)) : BeginResult :=
  let step := step + 1
  match encodeEv env events1 with
  | .error e => ⟨some e, step, none, none⟩
  | .ok hash1 =>
    match env.marshalHeader hash1 step with
    | .error e => ⟨some e, step, none, none⟩
    | .ok () =>
      match encodeEv env events2 with
      | .error e => ⟨some e, step, some hash1, none⟩
      | .ok hash2 =>
        if isReductionSuccessful (some hash1) (some hash2) events1 quorum then
          match env.marshalVoteSet hash2 events1 with
          | .error e => ⟨some e, step, some hash1, none⟩
          | .ok () =>
            match env.marshalHeader hash2 step with
            | .error e => ⟨some e, step, some hash1, none⟩
            | .ok () => ⟨none, step + 1, some hash1, some hash2⟩
        else ⟨none, step + 1, some hash1, none⟩

end Reduction

/-! ## Concrete sample data for witnesses and counterexamples -/

/-- A genesis-shaped header: height 0, all-zero digests. -/
def sampleHeader : Header :=
  ⟨0, 0, 0, List.replicate 32 0, List.replicate 33 0, List.replicate 32 0,
   EmptyCertificate, List.replicate 32 0⟩

def sampleBlock : Block := ⟨sampleHeader, []⟩

/-- A chain state whose sync counter is exhausted (not syncing). -/
def idleState : ChainState := ⟨sampleBlock, NewProvisioners, none, [], 0⟩

/-- A chain state in the middle of synchronization. -/
def syncingState : ChainState := ⟨sampleBlock, NewProvisioners, none, [], 3⟩

/-- An environment in which every external call succeeds. -/
def okEnv : AcceptEnv :=
  ⟨fun _ _ => .ok (), .ok NewProvisioners, fun _ _ => .ok (),
   fun _ _ => .ok NewProvisioners, .ok ()⟩

/-- A block following `sampleBlock` but with the parent's timestamp. -/
def c4Block : Block :=
  ⟨⟨0, 1, 0, sampleHeader.hash, List.replicate 33 0, List.replicate 32 0,
    EmptyCertificate, List.replicate 32 3⟩, []⟩

/-- The all-succeeding environment with the legacy header check installed as
the sanity verifier. -/
def c4Env : AcceptEnv :=
  { okEnv with
      sanityCheckBlock := Legacy.checkBlockHeader fun b => some b.header.txRoot }

/-- The all-succeeding environment with a failing certificate check. -/
def c6Env : AcceptEnv :=
  { okEnv with checkBlockCertificate := fun _ _ => .error "certificate invalid" }

/-- A rebuild environment in which every external call succeeds. -/
def c7Env : RebuildEnv := ⟨.ok (), .ok sampleBlock, .ok (), .ok ()⟩

/-- Legacy-chain tip: height 5, timestamp 100. -/
def c1Prev : Block :=
  ⟨⟨0, 5, 100, List.replicate 32 0, List.replicate 33 0, List.replicate 32 0,
    EmptyCertificate, List.replicate 32 7⟩, []⟩

/-- A child of `c1Prev` at the next height whose timestamp does not advance:
its header fails `checkBlockHeader`. -/
def c1Bad : Block :=
  ⟨⟨0, 6, 100, List.replicate 32 7, List.replicate 33 0, List.replicate 32 0,
    EmptyCertificate, List.replicate 32 9⟩, []⟩

/-- Legacy environment: block unseen, merkle recomputation agreeing with the
header, transaction checks passing, store and gossip succeeding. -/
def c1Env : Legacy.Env :=
  ⟨false, (fun b => some b.header.txRoot), (fun _ => .ok ()), .ok (), .ok ()⟩

/-- Reduction handler whose vote hash is the all-zero (empty) hash and whose
marshalling always succeeds. -/
def c2Env : Reduction.Env :=
  ⟨fun _ => .ok (List.replicate 32 0), fun _ _ => .ok (), fun _ _ => .ok ()⟩

/-- Reduction handler embedding a non-empty vote hash. -/
def c2EnvNonEmpty : Reduction.Env :=
  ⟨fun _ => .ok (List.replicate 32 1), fun _ _ => .ok (), fun _ _ => .ok ()⟩

/-- A certificate with well-formed 33-byte batched signatures. -/
def c9Cert : Certificate := ⟨List.replicate 33 1, List.replicate 33 2, 4, 5, 6⟩

/-- The all-zero header of `sampleHeader`, serialized: 229 zero bytes decode
to it. -/
def c10HeaderBytes : List Nat := List.replicate 229 0

/-- A transaction decoder that consumes nothing and always succeeds. -/
def c10F (r : List Nat) : Except String (Nat × List Nat) := .ok (0, r)

/-! ## Theorems -/

/-- Claim C4: a block whose header fails the sanity check against the tip —
here a block at height `tip.height + 1` whose timestamp equals the tip's
timestamp, with the legacy header check installed as the sanity verifier —
makes `AcceptBlock` return a validation error while the chain state (tip,
storage, counter) is unchanged and nothing is published. -/
theorem acceptBlock_rejects_timestamp_regression
    (root : Block → Option (List Nat)) (env : AcceptEnv) (s : ChainState) (blk : Block)
    (henv : env.sanityCheckBlock = Legacy.checkBlockHeader root)
    (hv : blk.header.version = 0)
    (hph : blk.header.prevBlockHash = s.tip.header.hash)
    (hht : blk.header.height = s.tip.header.height + 1)
    (hts : blk.header.timestamp = s.tip.header.timestamp) :
    AcceptBlock env s blk =
      (.error "current timestamp is less than the previous timestamp", s, []) := by
  unfold AcceptBlock
  rw [henv]
  unfold Legacy.checkBlockHeader
  simp [hv, hph, hht, hts]

/-- Claim C4 witness: the concrete timestamp-equal block is rejected with the
chain state intact and an empty effect trace. -/
theorem acceptBlock_rejects_timestamp_regression_witness :
    AcceptBlock c4Env idleState c4Block =
      (.error "current timestamp is less than the previous timestamp", idleState, []) :=
  acceptBlock_rejects_timestamp_regression (fun b => some b.header.txRoot)
    c4Env idleState c4Block rfl rfl rfl rfl rfl

/-- Claim C5: when every check passes, `AcceptBlock` returns success and
performs, in this order: the tip is set to the new block, the block is
appended to storage, exactly one `Inv` carrying the new hash goes to the
gossip topic, exactly one `AcceptedBlock` is announced, and the sync counter
is decremented exactly once. -/
theorem acceptBlock_success_effects (env : AcceptEnv) (s : ChainState) (blk : Block)
    (p1 p2 : Provisioners)
    (h1 : env.sanityCheckBlock s.tip blk = .ok ())
    (h2 : env.getProvisioners = .ok p1)
    (h3 : env.checkBlockCertificate p1 blk = .ok ())
    (h4 : env.executeStateTransition blk.txs blk.header.height = .ok p2)
    (h5 : env.appendResult = .ok ()) :
    AcceptBlock env s blk =
      (.ok (),
       { s with p := p2, tip := blk, storage := s.storage ++ [blk], counter := s.counter - 1 },
       [.setTip blk, .appendBlock blk, .publishGossipInv blk.header.hash,
        .publishAcceptedBlock blk, .decrementCounter]) := by
  simp [AcceptBlock, h1, h2, h3, h4, h5]

/-- Claim C5 witness: a concrete all-checks-passing acceptance with its full
ordered effect trace. -/
theorem acceptBlock_success_effects_witness :
    AcceptBlock okEnv syncingState sampleBlock =
      (.ok (),
       { syncingState with
           p := NewProvisioners
           tip := sampleBlock
           storage := syncingState.storage ++ [sampleBlock]
           counter := syncingState.counter - 1 },
       [.setTip sampleBlock, .appendBlock sampleBlock,
        .publishGossipInv sampleBlock.header.hash,
        .publishAcceptedBlock sampleBlock, .decrementCounter]) :=
  acceptBlock_success_effects okEnv syncingState sampleBlock
    NewProvisioners NewProvisioners rfl rfl rfl rfl rfl

/-- Claim C6: `AcceptBlock` installs the executor's `GetProvisioners` result
before verifying the certificate, so a rejection at the certificate step (or
at the state-transition step) leaves the provisioner set replaced while tip,
storage and last certificate are untouched: rejection past the sanity check
is not atomic for the provisioner set. -/
theorem acceptBlock_cert_reject_provisioner_frame
    (env : AcceptEnv) (s : ChainState) (blk : Block) (p1 : Provisioners) (e : String)
    (h1 : env.sanityCheckBlock s.tip blk = .ok ())
    (h2 : env.getProvisioners = .ok p1)
    (h3 : env.checkBlockCertificate p1 blk = .error e ∨
      (env.checkBlockCertificate p1 blk = .ok () ∧
       env.executeStateTransition blk.txs blk.header.height = .error e)) :
    AcceptBlock env s blk = (.error e, { s with p := p1 }, []) := by
  rcases h3 with h3 | ⟨h3, h4⟩
  · simp [AcceptBlock, h1, h2, h3]
  · simp [AcceptBlock, h1, h2, h3, h4]

/-- Claim C6 witness: a concrete certificate-step rejection that leaves the
provisioner set replaced and everything else unchanged. -/
theorem acceptBlock_cert_reject_provisioner_frame_witness :
    AcceptBlock c6Env idleState sampleBlock =
      (.error "certificate invalid", { idleState with p := NewProvisioners }, []) :=
  acceptBlock_cert_reject_provisioner_frame c6Env idleState sampleBlock
    NewProvisioners "certificate invalid" rfl rfl (Or.inl rfl)

/-- Claim C3 counterexample: with the sync counter exhausted, a Block-topic
message is dropped by `beginAccepting` — `AcceptBlock` is never invoked and
the state is untouched — refuting the claim that delivery on the Block topic
reaches `AcceptBlock` regardless of the synchronization counter. -/
theorem onAcceptBlock_skips_accept_when_not_syncing :
    isSyncing idleState.counter = false ∧
    onAcceptBlock okEnv idleState sampleBlock = (.ok (), idleState, []) ∧
    Action.callAcceptBlock sampleBlock ∉ (onAcceptBlock okEnv idleState sampleBlock).2.2 := by
  refine ⟨rfl, rfl, ?_⟩
  intro h
  rw [show onAcceptBlock okEnv idleState sampleBlock = (.ok (), idleState, []) from rfl] at h
  exact absurd h (List.not_mem_nil _)

/-- Claim C3 (amended): the Block-topic handler invokes `AcceptBlock` exactly
when the synchronization counter reports syncing; otherwise the message is
ignored. -/
theorem onAcceptBlock_invokes_accept_iff_syncing
    (env : AcceptEnv) (s : ChainState) (blk : Block) :
    Action.callAcceptBlock blk ∈ (onAcceptBlock env s blk).2.2 ↔
      isSyncing s.counter = true := by
  unfold onAcceptBlock beginAccepting
  cases hsync : isSyncing s.counter with
  | false => simp
  | true =>
    rcases hab : AcceptBlock env s blk with ⟨r, s1, t1⟩
    cases r <;> simp

/-- Claim C8: constructed over a genesis tip (height 0), the chain holds the
empty certificate as its last certificate, its tip has height 0, and the
Initialization handler emits exactly one `RoundUpdate` whose round is
`tip.height + 1 = 1` and which carries the tip's seed and hash and a copy of
the provisioner set. -/
theorem chainNew_genesis_round_update (b : Block) (h : b.header.height = 0) :
    (chainNew b).lastCertificate = some EmptyCertificate ∧
    (chainNew b).tip.header.height = 0 ∧
    onInitialization (chainNew b) =
      (.ok (), [.publishRoundUpdate ⟨1, (chainNew b).p.copy, b.header.seed, b.header.hash⟩]) := by
  refine ⟨?_, ?_, ?_⟩ <;>
    simp [chainNew, onInitialization, getRoundUpdate, h]

/-- Claim C8 witness: the concrete genesis boot. -/
theorem chainNew_genesis_round_update_witness :
    (chainNew sampleBlock).lastCertificate = some EmptyCertificate ∧
    (chainNew sampleBlock).tip.header.height = 0 ∧
    onInitialization (chainNew sampleBlock) =
      (.ok (), [.publishRoundUpdate
        ⟨1, (chainNew sampleBlock).p.copy, sampleBlock.header.seed, sampleBlock.header.hash⟩]) :=
  chainNew_genesis_round_update sampleBlock rfl

/-- Claim C7: `RebuildChain` returns an ordinary error exactly when clearing
storage fails; once the clear step has succeeded, a failing tip reload,
sanity check or wallet-database clear panics instead of returning; and on
the success path the in-memory state is reset to a fresh provisioner set and
the empty certificate before the wallet database is cleared. -/
theorem rebuildChain_error_panic_discipline (env : RebuildEnv) (s : ChainState) :
    (∀ e, env.clearResult = .error e →
       RebuildChain env s = (.err e, s, [.publishStopConsensus])) ∧
    (∀ e, (RebuildChain env s).1 = .err e → env.clearResult = .error e) ∧
    (env.clearResult = .ok () →
       (∀ e, env.loadTipResult = .error e → (RebuildChain env s).1 = .panic e) ∧
       (∀ tip e, env.loadTipResult = .ok tip → env.sanityCheckResult = .error e →
          (RebuildChain env s).1 = .panic e) ∧
       (∀ tip e, env.loadTipResult = .ok tip → env.sanityCheckResult = .ok () →
          env.clearWalletResult = .error e → (RebuildChain env s).1 = .panic e) ∧
       (∀ tip, env.loadTipResult = .ok tip → env.sanityCheckResult = .ok () →
          env.clearWalletResult = .ok () →
          (RebuildChain env s).2.1.p = NewProvisioners ∧
          (RebuildChain env s).2.1.lastCertificate = some EmptyCertificate ∧
          (RebuildChain env s).2.2 =
            [.publishStopConsensus, .setTip tip, .resetStateAction, .clearWalletAction])) := by
  refine ⟨?_, ?_, ?_⟩
  · intro e he
    simp [RebuildChain, he]
  · intro e he
    rcases hc : env.clearResult with ec | u
    · have h1 : (RebuildChain env s).1 = .err ec := by simp [RebuildChain, hc]
      rw [h1] at he
      injection he with h2
      rw [h2]
    · exfalso
      cases u
      rcases hl : env.loadTipResult with el | tip
      · simp [RebuildChain, hc, hl] at he
      · rcases hs : env.sanityCheckResult with es | u
        · simp [RebuildChain, hc, hl, hs] at he
        · cases u
          rcases hw : env.clearWalletResult with ew | u
          · simp [RebuildChain, hc, hl, hs, hw] at he
          · cases u
            simp [RebuildChain, hc, hl, hs, hw] at he
  · intro hc
    refine ⟨?_, ?_, ?_, ?_⟩
    · intro e hl
      simp [RebuildChain, hc, hl]
    · intro tip e hl hs
      simp [RebuildChain, hc, hl, hs]
    · intro tip e hl hs hw
      simp [RebuildChain, hc, hl, hs, hw]
    · intro tip hl hs hw
      simp [RebuildChain, hc, hl, hs, hw]

/-- Claim C7 witness: a successful rebuild resets the provisioner set and the
last certificate, with the reset happening before the wallet clear. -/
theorem rebuildChain_error_panic_discipline_witness :
    (RebuildChain c7Env idleState).2.1.p = NewProvisioners ∧
    (RebuildChain c7Env idleState).2.1.lastCertificate = some EmptyCertificate ∧
    (RebuildChain c7Env idleState).2.2 =
      [.publishStopConsensus, .setTip sampleBlock, .resetStateAction, .clearWalletAction] :=
  ((rebuildChain_error_panic_discipline c7Env idleState).2.2 rfl).2.2.2 sampleBlock rfl rfl rfl

/-- Claim C1: the legacy `verifyBlock` turns a failing `checkBlockHeader`
into success, so the legacy `AcceptBlock` accepts a block whose timestamp
does not exceed its parent's: the quantified header invariant does not hold
for every `AcceptBlock` in the repository. Evaluated at the failing input. -/
theorem legacyAcceptBlock_accepts_timestamp_regression :
    Legacy.checkBlockHeader c1Env.computeRoot c1Prev c1Bad =
      .error "current timestamp is less than the previous timestamp" ∧
    Legacy.AcceptBlock c1Env c1Prev c1Bad = (.ok (), c1Bad) ∧
    ¬ c1Prev.header.timestamp < c1Bad.header.timestamp := by
  refine ⟨rfl, rfl, by decide⟩

/-- Claim C2 counterexample: (i) with both phases agreeing on the all-zero
(empty) hash and two phase-1 votes against quorum 1, the coordinator still
forwards an agreement vote — emptiness is never checked; (ii) with quorum 2,
two votes in each phase (four in total, equal non-empty hashes), no
agreement vote is forwarded, because only phase-1 votes are counted. Both
refute the claimed if-and-only-if condition. -/
theorem reduction_success_condition_counterexample :
    ((Reduction.beginStep c2Env 1 1 (some [0, 1]) (some [2])).agreementVote =
       some (List.replicate 64 0) ∧
     ∀ b ∈ (List.replicate 64 0 : List Nat), b = 0) ∧
    (Reduction.beginStep c2EnvNonEmpty 2 1 (some [0, 1]) (some [2, 3])).agreementVote
      = none := by
  refine ⟨⟨rfl, by decide⟩, rfl⟩

/-- Claim C2 (amended): in an error-free run, the two-phase coordinator
forwards an agreement vote if and only if the phase-1 and phase-2 hash
buffers are byte-identical and the number of phase-1 votes alone reaches
`2·quorum` — the hash may be the empty (all-zero) one and phase-2 votes do
not count; otherwise no agreement vote is produced, and in either case the
reduction vote is emitted and the step advances by two. -/
theorem reduction_begin_agreement_characterization (env : Reduction.Env)
    (quorum step : Nat) (e1 e2 : Option (List Reduction.REvent)) (h1 h2 : List Nat)
    (henc1 : Reduction.encodeEv env e1 = .ok h1)
    (henc2 : Reduction.encodeEv env e2 = .ok h2)
    (hmh : ∀ h s, env.marshalHeader h s = .ok ())
    (hmv : ∀ h es, env.marshalVoteSet h es = .ok ()) :
    Reduction.beginStep env quorum step e1 e2 =
      if h1 = h2 ∧ Reduction.numEvents e1 ≥ quorum * 2 then
        ⟨none, step + 2, some h1, some h2⟩
      else
        ⟨none, step + 2, some h1, none⟩ := by
  by_cases hcond : h1 = h2 ∧ Reduction.numEvents e1 ≥ quorum * 2
  · obtain ⟨hEq, hLen⟩ := hcond
    subst hEq
    have hsucc : Reduction.isReductionSuccessful (some h1) (some h1) e1 quorum = true := by
      simp [Reduction.isReductionSuccessful, hLen]
    simp [Reduction.beginStep, henc1, henc2, hmh, hmv, hsucc, hLen]
  · have hsucc : Reduction.isReductionSuccessful (some h1) (some h2) e1 quorum = false := by
      simp only [Reduction.isReductionSuccessful, Option.isSome_some, Bool.and_self,
        Option.getD_some, Bool.true_and, Bool.and_eq_false_iff, beq_eq_false_iff_ne,
        ne_eq, decide_eq_false_iff_not, not_le, not_and, not_le] at hcond ⊢
      by_cases he : h1 = h2
      · exact Or.inr (hcond he)
      · exact Or.inl he
    simp [Reduction.beginStep, henc1, henc2, hmh, hsucc, hcond]

/-- Claim C2 witness: a concrete error-free run in which the amended success
condition holds and the agreement vote is forwarded. -/
theorem reduction_begin_agreement_characterization_witness :
    Reduction.beginStep c2EnvNonEmpty 1 1 (some [0, 1]) (some [2]) =
      ⟨none, 3, some (List.replicate 32 0 ++ List.replicate 32 1),
       some (List.replicate 32 0 ++ List.replicate 32 1)⟩ := by
  rw [reduction_begin_agreement_characterization c2EnvNonEmpty 1 1 (some [0, 1]) (some [2])
    (List.replicate 32 0 ++ List.replicate 32 1) (List.replicate 32 0 ++ List.replicate 32 1)
    rfl rfl (fun _ _ => rfl) (fun _ _ => rfl)]
  rw [if_pos (by exact ⟨rfl, by decide⟩)]

/-- Reading exactly the length of a prefix splits an append. -/
theorem takeExact_append (n : Nat) (l₁ l₂ : List Nat) (h : l₁.length = n) :
    takeExact n (l₁ ++ l₂) = .ok (l₁, l₂) := by
  subst h
  simp [takeExact, List.take_left, List.drop_left]

/-- Claim C9: marshalling a certificate whose batched signatures are 33 bytes
writes `step_one_sig | step_two_sig | step | bitmap₁ | bitmap₂` in exactly
that order, and unmarshalling the resulting buffer restores the original
certificate (with any trailing bytes untouched). -/
theorem marshalCertificate_roundtrip (c : Certificate)
    (h1 : c.stepOneBatchedSig.length = 33) (h2 : c.stepTwoBatchedSig.length = 33)
    (hs : c.step < 256) (hb1 : c.stepOneCommittee < 2 ^ 64)
    (hb2 : c.stepTwoCommittee < 2 ^ 64) :
    MarshalCertificate [] c =
      .ok (c.stepOneBatchedSig ++ c.stepTwoBatchedSig ++ [c.step] ++
           toLEBytes 8 c.stepOneCommittee ++ toLEBytes 8 c.stepTwoCommittee) ∧
    ∀ rest, UnmarshalCertificate
        (c.stepOneBatchedSig ++ c.stepTwoBatchedSig ++ [c.step] ++
         toLEBytes 8 c.stepOneCommittee ++ toLEBytes 8 c.stepTwoCommittee ++ rest) =
      .ok (c, rest) := by
  constructor
  · simp [MarshalCertificate, writeBLS, h1, h2, writeUint8, writeUint64LE,
      Nat.mod_eq_of_lt hs, List.append_assoc]
  · intro rest
    have e1 : (toLEBytes 8 c.stepOneCommittee).length = 8 := toLEBytes_length 8 _
    have e2 : (toLEBytes 8 c.stepTwoCommittee).length = 8 := toLEBytes_length 8 _
    simp only [List.append_assoc, List.singleton_append]
    simp [UnmarshalCertificate, readBLS, readUint8, readUint64LE, Except.map,
      takeExact_append _ _ _ h1, takeExact_append _ _ _ h2,
      takeExact_append _ _ _ e1, takeExact_append _ _ _ e2,
      fromLEBytes_toLEBytes 8 _ hb1, fromLEBytes_toLEBytes 8 _ hb2]

/-- Claim C9 witness: the concrete round trip. -/
theorem marshalCertificate_roundtrip_witness :
    MarshalCertificate [] c9Cert =
      .ok (c9Cert.stepOneBatchedSig ++ c9Cert.stepTwoBatchedSig ++ [c9Cert.step] ++
           toLEBytes 8 c9Cert.stepOneCommittee ++ toLEBytes 8 c9Cert.stepTwoCommittee) ∧
    UnmarshalCertificate
        (c9Cert.stepOneBatchedSig ++ c9Cert.stepTwoBatchedSig ++ [c9Cert.step] ++
         toLEBytes 8 c9Cert.stepOneCommittee ++ toLEBytes 8 c9Cert.stepTwoCommittee ++ []) =
      .ok (c9Cert, []) :=
  ⟨(marshalCertificate_roundtrip c9Cert (by decide) (by decide) (by decide)
      (by decide) (by decide)).1,
   (marshalCertificate_roundtrip c9Cert (by decide) (by decide) (by decide)
      (by decide) (by decide)).2 []⟩

/-- A successful `readTxs` run returns exactly the requested number of
transactions. -/
theorem readTxs_length {Tx : Type} (f : List Nat → Except String (Tx × List Nat))
    (n : Nat) (r : List Nat) (ts : List Tx) (rest : List Nat)
    (h : readTxs f n r = .ok (ts, rest)) : ts.length = n := by
  induction n generalizing r ts rest with
  | zero =>
    simp [readTxs] at h
    rw [h.1]
    rfl
  | succ n ih =>
    rw [readTxs] at h
    cases hf : f r with
    | error e => simp [hf] at h
    | ok p =>
      obtain ⟨t, r1⟩ := p
      cases hr : readTxs f n r1 with
      | error e => simp [hf, hr] at h
      | ok q =>
        obtain ⟨ts1, rest1⟩ := q
        simp [hf, hr] at h
        obtain ⟨hts, hrest⟩ := h
        subst hts
        simp [ih r1 ts1 rest1 hr]

/-- Claim C10: when the header decodes but the transaction-count varint
exceeds `MAX_I32 / 8`, `unmarshalBlockTxs` fails with the dedicated error and
produces no transaction list; for a count within the bound, decoding reads
exactly that many transactions. -/
theorem unmarshalBlockTxs_bound {Tx : Type}
    (f : List Nat → Except String (Tx × List Nat))
    (buf r1 r2 : List Nat) (hdr : Header) (v : Nat)
    (hh : UnmarshalHeader buf = .ok (hdr, r1))
    (hv : readVarInt r1 = .ok (v, r2)) :
    (v > maxBlockTxs → unmarshalBlockTxs f buf = .error "block tx count too large") ∧
    (∀ h txs rest, unmarshalBlockTxs f buf = .ok (h, txs, rest) → txs.length = v) := by
  constructor
  · intro hgt
    simp [unmarshalBlockTxs, hh, hv, hgt]
  · intro h txs rest hok
    rw [unmarshalBlockTxs] at hok
    by_cases hgt : v > maxBlockTxs
    · simp [hh, hv, hgt] at hok
    · cases hr : readTxs f v r2 with
      | error e => simp [hh, hv, hgt, hr] at hok
      | ok q =>
        obtain ⟨ts1, rest1⟩ := q
        simp [hh, hv, hgt, hr] at hok
        obtain ⟨hhdr, htxs, hrest⟩ := hok
        subst htxs
        exact readTxs_length f v r2 ts1 rest1 hr

set_option maxRecDepth 4000 in
/-- Claim C10 witness: a 229-zero-byte header followed by the varint
4294967295 (above `MAX_I32 / 8`) is rejected with the dedicated error, while
a zero transaction count decodes to exactly zero transactions. -/
theorem unmarshalBlockTxs_bound_witness :
    unmarshalBlockTxs c10F (c10HeaderBytes ++ [254, 255, 255, 255, 255]) =
      .error "block tx count too large" ∧
    ∀ h txs rest,
      unmarshalBlockTxs c10F (c10HeaderBytes ++ [0]) = .ok (h, txs, rest) →
        txs.length = 0 :=
  ⟨(unmarshalBlockTxs_bound c10F (c10HeaderBytes ++ [254, 255, 255, 255, 255])
      [254, 255, 255, 255, 255] [] sampleHeader 4294967295 (by rfl) (by rfl)).1
      (by decide),
   (unmarshalBlockTxs_bound c10F (c10HeaderBytes ++ [0]) [0] [] sampleHeader 0
      (by rfl) (by rfl)).2⟩

end Dusk
